import Mathlib

/-!
Shallow embedding of `agent_adapter/main.py` (OpenMeteo A2A agent).

Python floats are modelled as rationals (ℚ); JSON values as an inductive
`Json`; the in-memory `TASKS` dict as an association list; the upstream
HTTP endpoint as an oracle supplying one outcome per attempt; `hashlib.sha256`
as an abstract function parameter `hash : String → String` (its internals are
library code, not part of this repository); wall-clock time as an `Int`
parameter `now`.  Optional JSON fields that are absent are `none`; the corner
case of a field explicitly set to JSON `null` where the Python default is
non-null is not modelled.
-/

namespace OpenMeteo

/-- JSON values (the payloads exchanged with the caller and the upstream). -/
inductive Json where
  | null : Json
  | bool : Bool → Json
  | num : ℚ → Json
  | str : String → Json
  | arr : List Json → Json
  | obj : List (String × Json) → Json

/-- Field lookup in a JSON object (`none` when the key is absent or the value
is not an object).  Used to observe stored/returned JSON in the statements;
inside the worker it is only the dict case of `d.get(k)` — a non-dict
receiver raises `AttributeError` in Python, which is modelled by the explicit
crash path of `worker_finish`, never by this function. -/
def json_get : Json → String → Option Json
  | .obj fs, k => fs.lookup k
  | _, _ => none

/-- `d.get(k)` on a value already known to be a dict, with Python's default
`None` mapped to `Json.null`.  The worker only applies it after the payload
has been dispatched on and found to be an object. -/
def py_get (j : Json) (k : String) : Json :=
  (json_get j k).getD .null

/-- Python truthiness of a JSON value (`if x:`). -/
def py_truthy : Json → Bool
  | .null => false
  | .bool b => b
  | .num q => decide (q ≠ 0)
  | .str s => decide (s ≠ "")
  | .arr [] => false
  | .arr (_ :: _) => true
  | .obj [] => false
  | .obj (_ :: _) => true

/-- Python's `s.startswith(pre)`, computed on the character lists. -/
def startswith (s pre : String) : Bool :=
  s.toList.take pre.toList.length == pre.toList

/-- `x or y` for `x : Optional[str]`: Python truthiness, so both `None` and
the empty string fall through to `y`. -/
def py_or_str : Option String → String → String
  | none, d => d
  | some s, d => if s = "" then d else s

/-- Insert a key/value pair into a key-sorted list (ordered by `String` `<`). -/
def insert_field (p : String × String) : List (String × String) → List (String × String)
  | [] => [p]
  | q :: qs => if p.1 < q.1 then p :: q :: qs else q :: insert_field p qs

/-- Sort an association list by key: models `sort_keys=True` in `json.dumps`. -/
def sort_fields : List (String × String) → List (String × String)
  | [] => []
  | p :: ps => insert_field p (sort_fields ps)

/-- Decimal-style rendering of a number, standing in for CPython's float/int
`repr` inside `json.dumps`.  Exact float formatting is not modelled; every
claim about the serialization only needs it to be a deterministic function
of the value. -/
def num_repr (q : ℚ) : String :=
  if q.den = 1 then toString q.num else toString q.num ++ "/" ++ toString q.den

/-- Join already-serialized object fields. -/
def join_fields : List (String × String) → String
  | [] => ""
  | [(k, v)] => "\"" ++ k ++ "\": " ++ v
  | (k, v) :: f :: fs => "\"" ++ k ++ "\": " ++ v ++ ", " ++ join_fields (f :: fs)

mutual
/-- `json.dumps(v, sort_keys=True)`: deterministic serialization with object
keys sorted.  String escaping is not modelled (the serialized queries contain
no characters that need escaping). -/
def json_dumps_sorted : Json → String
  | .null => "null"
  | .bool true => "true"
  | .bool false => "false"
  | .num q => num_repr q
  | .str s => "\"" ++ s ++ "\""
  | .arr xs => "[" ++ dumps_list xs ++ "]"
  | .obj fs => "\x7b" ++ join_fields (sort_fields (dump_fields fs)) ++ "\x7d"

/-- Serialize the elements of a JSON array. -/
def dumps_list : List Json → String
  | [] => ""
  | [x] => json_dumps_sorted x
  | x :: y :: xs => json_dumps_sorted x ++ ", " ++ dumps_list (y :: xs)

/-- Serialize each field value of a JSON object, keeping the keys. -/
def dump_fields : List (String × Json) → List (String × String)
  | [] => []
  | (k, v) :: fs => (k, json_dumps_sorted v) :: dump_fields fs
end

/-! ## Input model and validation (`ForecastInputs`, pydantic) -/

/-- Raw (pre-validation) forecast inputs as supplied by the caller; `none`
means the field is absent from the request body, so pydantic's declared
default applies. -/
structure RawForecastInputs where
  latitude : ℚ
  longitude : ℚ
  hourly : Option (List String) := none
  daily : Option (List String) := none
  timezone : Option String := none
  forecast_days : Option Int := none
  past_days : Option Int := none
  model : Option String := none

/-- Validated `ForecastInputs`, defaults applied: `timezone = "UTC"`,
`forecast_days = 1`, `past_days = 0`. -/
structure ForecastInputs where
  latitude : ℚ
  longitude : ℚ
  hourly : Option (List String)
  daily : Option (List String)
  timezone : String
  forecast_days : Int
  past_days : Int
  model : Option String

/-- Pydantic validation of `ForecastInputs`, in field-declaration order:
the `lat_range` / `lon_range` `@field_validator`s, then the
`Field(ge=, le=)` bounds on `forecast_days` and `past_days`.
Out-of-range values are rejected with an error, never clamped. -/
def validate_inputs (r : RawForecastInputs) : Except String ForecastInputs :=
  if r.latitude < -90 ∨ r.latitude > 90 then
    .error "latitude out of range [-90,90]"
  else if r.longitude < -180 ∨ r.longitude > 180 then
    .error "longitude out of range [-180,180]"
  else if (r.forecast_days.getD 1) < 1 ∨ (r.forecast_days.getD 1) > 16 then
    .error "forecast_days out of range [1,16]"
  else if (r.past_days.getD 0) < 0 ∨ (r.past_days.getD 0) > 14 then
    .error "past_days out of range [0,14]"
  else
    .ok { latitude := r.latitude, longitude := r.longitude,
          hourly := r.hourly, daily := r.daily,
          timezone := r.timezone.getD "UTC",
          forecast_days := r.forecast_days.getD 1,
          past_days := r.past_days.getD 0,
          model := r.model }

/-- The `A2ATask` envelope, post-validation.  `constraints` is a dict of
integer-valued constraint entries (only `latency_ms`, an integer count of
milliseconds, is ever read); `evidence` and `callback` are carried but
unused. -/
structure A2ATask where
  task_id : Option String := none
  type : String
  inputs : ForecastInputs
  constraints : Option (List (String × Int)) := none
  evidence : Option Json := none
  callback : Option String := none
  idempotency_key : Option String := none

/-- The raw `A2ATask` envelope before pydantic validation. -/
structure RawA2ATask where
  task_id : Option String := none
  type : String
  inputs : RawForecastInputs
  constraints : Option (List (String × Int)) := none
  evidence : Option Json := none
  callback : Option String := none
  idempotency_key : Option String := none

/-- `A2ATask(**body)`: nested validation of the inputs; any validation error
propagates as the raised exception's message. -/
def parse_task (r : RawA2ATask) : Except String A2ATask :=
  match validate_inputs r.inputs with
  | .error e => .error e
  | .ok i => .ok { task_id := r.task_id, type := r.type, inputs := i,
                   constraints := r.constraints, evidence := r.evidence,
                   callback := r.callback, idempotency_key := r.idempotency_key }

/-! ## Query construction and the upstream client -/

def OPEN_METEO_BASE : String := "https://api.open-meteo.com/v1/forecast"

/-- `build_query`: the normalized query dict.  `if i.hourly:` is Python
truthiness, so an empty list is omitted like an absent one; same for
`daily` and `model` (empty string omitted). -/
def build_query (i : ForecastInputs) : Json :=
  .obj ([("latitude", Json.num i.latitude), ("longitude", Json.num i.longitude),
         ("timezone", Json.str i.timezone),
         ("forecast_days", Json.num i.forecast_days),
         ("past_days", Json.num i.past_days)]
    ++ (match i.hourly with
        | some (h :: hs) => [("hourly", Json.str (String.intercalate "," (h :: hs)))]
        | _ => [])
    ++ (match i.daily with
        | some (d :: ds) => [("daily", Json.str (String.intercalate "," (d :: ds)))]
        | _ => [])
    ++ (match i.model with
        | some m => if m = "" then [] else [("models", Json.str m)]
        | none => []))

/-- One outcome of a single GET attempt against the upstream, as observed by
the client: a 200 with a parsed JSON body, a non-200 status with a body
text, or a transport exception with a message.  (A 200 whose body fails to
parse as JSON raises inside the `try`, so it is an `exc` outcome.) -/
inductive AttemptOutcome where
  | ok (body : Json)
  | httpError (code : Nat) (body : String)
  | exc (msg : String)

/-- Whether an attempt outcome counts as a failure (non-200 or exception). -/
def is_failure : AttemptOutcome → Bool
  | .ok _ => false
  | _ => true

/-- The diagnostic string recorded in `last` for a failed attempt:
`f"status={r.status_code}, body={r.text[:800]}"` for a non-200, the
exception text for a transport error. -/
def attempt_diag : AttemptOutcome → Option String
  | .ok _ => none
  | .httpError c b => some ("status=" ++ toString c ++ ", body=" ++ b.take 800)
  | .exc m => some m

/-- Result of `request_open_meteo`, extended with the observable trace of
`time.sleep` calls (seconds, in order) and the number of attempts made. -/
structure ReqResult where
  ok : Bool
  json : Option Json
  error : Option String
  sleeps : List ℚ
  attempts : Nat

/-- The `for _ in range(2)` retry loop, one list element per remaining
attempt, carrying `backoff` and `last` exactly as the source does: on a 200
it returns immediately; on a failure it records the diagnostic, sleeps the
current backoff, doubles it, and continues; when attempts are exhausted it
returns `{"ok": False, "error": last}`. -/
def rom_loop : List AttemptOutcome → ℚ → Option String → List ℚ → Nat → ReqResult
  | [], _, last, sleeps, n =>
      { ok := false, json := none, error := last, sleeps := sleeps.reverse, attempts := n }
  | o :: rest, backoff, last, sleeps, n =>
      match o with
      | .ok j =>
          { ok := true, json := some j, error := none, sleeps := sleeps.reverse,
            attempts := n + 1 }
      | f => rom_loop rest (backoff * 2) (attempt_diag f) (backoff :: sleeps) (n + 1)

/-- `request_open_meteo(query, timeout_s)`: the query and timeout are passed
to the HTTP library and absorbed into the attempt oracle `o1, o2`. -/
def request_open_meteo (query : Json) (timeout_s : Int)
    (o1 o2 : AttemptOutcome) : ReqResult :=
  rom_loop [o1, o2] (4/5 : ℚ) none [] 0

/-! ## Task store and worker -/

/-- One `TASKS[tid]` entry: the dict `{"status": ..., "outputs": ...,
"evidence": [...]}`, plus the `"idem"` key the worker adds later
(`none` while absent). -/
structure TaskEntry where
  status : String
  outputs : Json
  evidence : List Json
  idem : Option String

/-- The entry `create_task` stores: `{"status":"accepted","outputs":{},"evidence":[]}`. -/
def fresh_entry : TaskEntry :=
  { status := "accepted", outputs := .obj [], evidence := [], idem := none }

/-- `(payload.constraints or {}).get("latency_ms", 20000)` (worker line 1 of
the timeout computation). -/
def timeout_ms_of (constraints : Option (List (String × Int))) : Int :=
  match (constraints.getD []).lookup "latency_ms" with
  | some v => v
  | none => 20000

/-- `timeout_s = max(5, min(60, timeout_ms // 1000))`; Python `//` is floor
division, `Int.fdiv`. -/
def timeout_s_of (constraints : Option (List (String × Int))) : Int :=
  max 5 (min 60 (Int.fdiv (timeout_ms_of constraints) 1000))

/-- `Option String` to JSON, as the worker stores `res.get("error")`. -/
def opt_str_json : Option String → Json
  | some s => .str s
  | none => .null

/-- `list(data.get(k, {}).keys()) if data.get(k) else []` evaluated on the
fields of the (already dict-checked) payload: `none` models the
`AttributeError` the worker raises when the truthy group value is not a dict
and so has no `.keys()`. -/
def group_keys (fs : List (String × Json)) (k : String) : Option (List String) :=
  if py_truthy ((fs.lookup k).getD .null) then
    match (fs.lookup k).getD (.obj []) with
    | .obj gs => some (gs.map Prod.fst)
    | _ => none
  else some []

/-- The single evidence record the worker appends on success. -/
def evidence_record (qhash : String) (now : Int) : Json :=
  .obj [("type", .str "upstream.http"),
        ("value", .obj [("url", .str OPEN_METEO_BASE),
                        ("query_sha256", .str qhash),
                        ("timestamp", .num now)])]

/-- The worker's final update of its entry, after `res = request_open_meteo(...)`:
on failure, status `error` with `{"message": "upstream_failed", "detail": ...}`
(evidence untouched); on success, status `completed` with the summary, the
verbatim payload, and exactly one evidence record.  `none` is the worker
thread dying of an uncaught exception before it writes the final update:
`data.get(...)` raises `AttributeError` when the 200 body is not a dict,
`.keys()` raises when a truthy `hourly`/`daily` group value is not a dict,
and `res["json"]` would raise `KeyError` in the (unreachable from
`request_open_meteo`) `ok`-without-json case. -/
def worker_finish (qhash : String) (now : Int) (res : ReqResult) (e : TaskEntry) :
    Option TaskEntry :=
  match res.ok, res.json with
  | false, _ =>
      some { e with status := "error",
                    outputs := .obj [("message", .str "upstream_failed"),
                                     ("detail", opt_str_json res.error)] }
  | true, none => none
  | true, some data =>
      match data with
      | .obj fs =>
          match group_keys fs "hourly", group_keys fs "daily" with
          | some hks, some dks =>
              let summary : Json :=
                .obj [("latitude", py_get data "latitude"),
                      ("longitude", py_get data "longitude"),
                      ("hourly_fields", .arr (hks.map Json.str)),
                      ("daily_fields", .arr (dks.map Json.str))]
              some { e with status := "completed",
                            outputs := .obj [("summary", summary),
                                             ("open_meteo", data)],
                            evidence := [evidence_record qhash now] }
          | _, _ => none
      | _ => none

/-- The worker's effect on its own `TASKS` entry, as the list of successive
entry states (the worker only ever writes `TASKS[task_id]`, so the per-entry
trace is the store-level behaviour restricted to this task): the entry at
worker start (`e0`, as stored by `create_task`), after `TASKS[task_id]["status"]
= "working"`, after `TASKS[task_id]["idem"] = payload.idempotency_key or qhash`,
and — when the worker survives its final update — the success/failure entry;
when the thread dies (`worker_finish` = `none`) the trace ends with the entry
still `working`.  `hash` abstracts `hashlib.sha256(...).hexdigest()`;
`o1, o2` are the upstream attempt outcomes; `now` is `int(time.time())`. -/
def worker_trace (hash : String → String) (p : A2ATask) (o1 o2 : AttemptOutcome)
    (now : Int) (e0 : TaskEntry) : List TaskEntry :=
  let e1 := { e0 with status := "working" }
  let timeout_s := timeout_s_of p.constraints
  let query := build_query p.inputs
  let qhash := hash (json_dumps_sorted query)
  let e2 := { e1 with idem := some (py_or_str p.idempotency_key qhash) }
  let res := request_open_meteo query timeout_s o1 o2
  [e0, e1, e2] ++ (worker_finish qhash now res e2).toList

/-- The entry the worker leaves behind. -/
def worker_final (hash : String → String) (p : A2ATask) (o1 o2 : AttemptOutcome)
    (now : Int) (e0 : TaskEntry) : TaskEntry :=
  (worker_trace hash p o1 o2 now e0).getLastD e0

/-! ## HTTP surface: `POST /a2a/task` -/

/-- The task store `TASKS`, an association list keyed by task id. -/
def TaskStore : Type := List (String × TaskEntry)

/-- `TASKS[tid] = entry`: insert-or-replace, dict semantics. -/
def store_set : TaskStore → String → TaskEntry → TaskStore
  | [], k, v => [(k, v)]
  | (q, w) :: rest, k, v =>
      if q = k then (k, v) :: rest else (q, w) :: store_set rest k v

/-- Read a stored entry (dict lookup). -/
def store_get : TaskStore → String → Option TaskEntry
  | [], _ => none
  | (q, w) :: rest, k => if q = k then some w else store_get rest k

/-- What `create_task` returns and does: the HTTP status and JSON body sent
back, the task store afterwards, and the worker thread spawned (if any). -/
structure CreateResult where
  http_status : Nat
  body : Json
  tasks : TaskStore
  spawned : Option (String × A2ATask)

/-- The literal example payload embedded in the malformed-input response. -/
def example_payload : Json :=
  .obj [("type", .str "weather.forecast"),
        ("inputs", .obj [("latitude", .num (356762/10000 : ℚ)),
                         ("longitude", .num (1396503/10000 : ℚ)),
                         ("hourly", .arr [.str "temperature_2m"]),
                         ("timezone", .str "Asia/Tokyo"),
                         ("forecast_days", .num 1)])]

/-- `POST /a2a/task`.  `auth` is the `authorization` header (`none` if absent);
`parsed` is the outcome of `body = await req.json(); task = A2ATask(**body)`
(`Except.error e` when either raised, carrying the exception text);
`fresh_id` is `str(uuid.uuid4())`.  A missing/non-Bearer header raises
`HTTPException(401)`; a parse/validation failure is caught and answered with
HTTP 200 `input_required` plus the error text and example; a wrong `type`
is answered with `input_required` and the expected type; otherwise the entry
is stored unconditionally under `task.task_id or fresh_id` (Python truthiness)
and a worker is spawned. -/
def create_task (auth : Option String) (parsed : Except String A2ATask)
    (fresh_id : String) (tasks : TaskStore) : CreateResult :=
  if ¬ startswith (auth.getD "") "Bearer " then
    { http_status := 401, body := .obj [("detail", .str "missing api-key")],
      tasks := tasks, spawned := none }
  else
    match parsed with
    | .error e =>
        { http_status := 200,
          body := .obj [("status", .str "input_required"),
                        ("outputs", .obj [("error", .str e),
                                          ("example", example_payload)])],
          tasks := tasks, spawned := none }
    | .ok task =>
        if task.type ≠ "weather.forecast" then
          { http_status := 200,
            body := .obj [("status", .str "input_required"),
                          ("outputs", .obj [("expected_type", .str "weather.forecast")])],
            tasks := tasks, spawned := none }
        else
          let tid := py_or_str task.task_id fresh_id
          { http_status := 200,
            body := .obj [("task_id", .str tid), ("status", .str "accepted")],
            tasks := store_set tasks tid fresh_entry,
            spawned := some (tid, task) }

/-! ## Auxiliary notions used in the statements -/

/-- Rank of a lifecycle status in the state machine
`accepted → working → (completed | error)`; used to state that a status
sequence never reverts. -/
def status_rank : String → Nat
  | "accepted" => 0
  | "working" => 1
  | _ => 2

/-- The out-of-range condition of claim C6 on raw inputs: latitude outside
[-90, 90], longitude outside [-180, 180], a supplied `forecast_days` outside
[1, 16], or a supplied `past_days` outside [0, 14]. -/
def out_of_range_inputs (r : RawForecastInputs) : Prop :=
  r.latitude < -90 ∨ r.latitude > 90 ∨
  r.longitude < -180 ∨ r.longitude > 180 ∨
  (∃ v, r.forecast_days = some v ∧ (v < 1 ∨ v > 16)) ∨
  (∃ v, r.past_days = some v ∧ (v < 0 ∨ v > 14))

/-! ## Concrete sample values (witness inputs) -/

/-- The example inputs from the spec's testable properties. -/
def sample_inputs : ForecastInputs :=
  { latitude := 356762/10000, longitude := 1396503/10000,
    hourly := some ["temperature_2m"], daily := none, timezone := "UTC",
    forecast_days := 1, past_days := 0, model := none }

/-- A well-formed forecast task. -/
def sample_task : A2ATask :=
  { type := "weather.forecast", inputs := sample_inputs }

/-- A well-formed task carrying a non-empty caller-supplied idempotency key. -/
def sample_task_with_key : A2ATask :=
  { sample_task with idempotency_key := some "key-1" }

/-- A well-formed task carrying an empty-string idempotency key. -/
def sample_task_empty_key : A2ATask :=
  { sample_task with idempotency_key := some "" }

/-- A raw envelope whose latitude is out of range. -/
def raw_bad_latitude : RawA2ATask :=
  { type := "weather.forecast",
    inputs := { latitude := 91, longitude := 0 } }

/-- The fields of a sample well-formed upstream 200 body. -/
def sample_fields : List (String × Json) :=
  [("latitude", .num (356762/10000 : ℚ)), ("longitude", .num (1396503/10000 : ℚ)),
   ("hourly", .obj [("time", .arr []), ("temperature_2m", .arr [])])]

/-- A sample well-formed upstream 200 body. -/
def sample_data : Json := .obj sample_fields

/-- A terminal entry standing for an older task under the same id. -/
def sample_old_entry : TaskEntry :=
  { status := "completed", outputs := .obj [("summary", .null)], evidence := [],
    idem := some "old" }

/-! ## Helper lemmas -/

/-- When the worker survives its final update, that update never touches the
`idem` field. -/
theorem worker_finish_idem (qhash : String) (now : Int) (res : ReqResult)
    (e e2 : TaskEntry) (h : worker_finish qhash now res e = some e2) :
    e2.idem = e.idem := by
  rcases res with ⟨ok, j, err, sl, n⟩
  cases ok with
  | false =>
      simp only [worker_finish] at h
      cases h
      rfl
  | true =>
      cases j with
      | none => exact Option.noConfusion h
      | some data =>
          cases data <;> simp only [worker_finish] at h <;>
            first
            | exact Option.noConfusion h
            | (rename_i fs
               cases hh : group_keys fs "hourly" <;>
                 cases hd : group_keys fs "daily" <;>
                 rw [hh, hd] at h <;>
                 first
                 | exact Option.noConfusion h
                 | (cases h; rfl))

/-- A worker that survives its final update ends in `error` or `completed`. -/
theorem worker_finish_some_status (qhash : String) (now : Int) (res : ReqResult)
    (e e2 : TaskEntry) (h : worker_finish qhash now res e = some e2) :
    e2.status = "error" ∨ e2.status = "completed" := by
  rcases res with ⟨ok, j, err, sl, n⟩
  cases ok with
  | false =>
      simp only [worker_finish] at h
      cases h
      exact Or.inl rfl
  | true =>
      cases j with
      | none => exact Option.noConfusion h
      | some data =>
          cases data <;> simp only [worker_finish] at h <;>
            first
            | exact Option.noConfusion h
            | (rename_i fs
               cases hh : group_keys fs "hourly" <;>
                 cases hd : group_keys fs "daily" <;>
                 rw [hh, hd] at h <;>
                 first
                 | exact Option.noConfusion h
                 | (cases h; exact Or.inr rfl))

/-- A successful `res` whose dict body has well-formed groups completes. -/
theorem worker_finish_success (qhash : String) (now : Int) (err : Option String)
    (sl : List ℚ) (n : Nat) (fs : List (String × Json)) (hks dks : List String)
    (e : TaskEntry)
    (hh : group_keys fs "hourly" = some hks) (hd : group_keys fs "daily" = some dks) :
    worker_finish qhash now
        { ok := true, json := some (.obj fs), error := err, sleeps := sl,
          attempts := n } e =
      some { e with
             status := "completed",
             outputs := .obj [("summary",
                               .obj [("latitude", py_get (.obj fs) "latitude"),
                                     ("longitude", py_get (.obj fs) "longitude"),
                                     ("hourly_fields", .arr (hks.map Json.str)),
                                     ("daily_fields", .arr (dks.map Json.str))]),
                              ("open_meteo", .obj fs)],
             evidence := [evidence_record qhash now] } := by
  simp only [worker_finish]
  rw [hh, hd]

/-- The last element of the worker trace shape. -/
theorem getLastD_append_toList (e0 e1 e2 : TaskEntry) (wf : Option TaskEntry) :
    ([e0, e1, e2] ++ wf.toList).getLastD e0 = wf.getD e2 := by
  cases wf <;> rfl

/-- The entry the worker leaves behind keeps `e2`'s `idem` field. -/
theorem idem_getD (qhash : String) (now : Int) (res : ReqResult) (e : TaskEntry) :
    (((worker_finish qhash now res e).getD e)).idem = e.idem := by
  cases hfin : worker_finish qhash now res e with
  | none => rfl
  | some e3 => simpa using worker_finish_idem qhash now res e e3 hfin

/-- The `idem` field of the worker's final entry: the Python-truthy `or` of
the caller key and the query hash, whether or not the thread survives. -/
theorem worker_final_idem (hash : String → String) (p : A2ATask)
    (o1 o2 : AttemptOutcome) (now : Int) (e0 : TaskEntry) :
    (worker_final hash p o1 o2 now e0).idem
      = some (py_or_str p.idempotency_key
          (hash (json_dumps_sorted (build_query p.inputs)))) := by
  simp only [worker_final, worker_trace]
  rw [getLastD_append_toList]
  exact idem_getD _ _ _ _

/-- The worker's final entry when the upstream succeeds with a well-formed
dict body. -/
theorem worker_final_success (hash : String → String) (p : A2ATask)
    (o1 o2 : AttemptOutcome) (now : Int) (fs : List (String × Json))
    (hks dks : List String) (err : Option String) (sl : List ℚ) (n : Nat)
    (hres : request_open_meteo (build_query p.inputs) (timeout_s_of p.constraints)
        o1 o2 = { ok := true, json := some (.obj fs), error := err, sleeps := sl,
                  attempts := n })
    (hh : group_keys fs "hourly" = some hks)
    (hd : group_keys fs "daily" = some dks) :
    worker_final hash p o1 o2 now fresh_entry =
      { status := "completed",
        outputs := .obj [("summary",
                          .obj [("latitude", py_get (.obj fs) "latitude"),
                                ("longitude", py_get (.obj fs) "longitude"),
                                ("hourly_fields", .arr (hks.map Json.str)),
                                ("daily_fields", .arr (dks.map Json.str))]),
                         ("open_meteo", .obj fs)],
        evidence := [evidence_record (hash (json_dumps_sorted (build_query p.inputs)))
                      now],
        idem := some (py_or_str p.idempotency_key
                  (hash (json_dumps_sorted (build_query p.inputs)))) } := by
  simp only [worker_final, worker_trace]
  rw [hres, worker_finish_success _ _ _ _ _ _ _ _ _ hh hd, getLastD_append_toList]
  rfl

/-- The status sequence of a trace `[created, working, idem-written] ++ final`
is non-decreasing in rank, and either reaches a terminal `completed`/`error`
or stops at `working`. -/
theorem trace_status_disj (e0 e1 e2 : TaskEntry) (wf : Option TaskEntry)
    (h0 : e0.status = "accepted") (h1 : e1.status = "working")
    (h2 : e2.status = "working")
    (hwf : ∀ e3, wf = some e3 → e3.status = "error" ∨ e3.status = "completed") :
    List.Chain' (fun a b => status_rank a ≤ status_rank b)
      (([e0, e1, e2] ++ wf.toList).map TaskEntry.status) ∧
    ((∃ t, (t = "completed" ∨ t = "error") ∧
        ([e0, e1, e2] ++ wf.toList).map TaskEntry.status
          = ["accepted", "working", "working", t]) ∨
      ([e0, e1, e2] ++ wf.toList).map TaskEntry.status
        = ["accepted", "working", "working"]) := by
  cases wf with
  | none =>
      refine ⟨?_, Or.inr ?_⟩ <;> simp [h0, h1, h2, status_rank]
  | some e3 =>
      rcases hwf e3 rfl with h3 | h3
      · refine ⟨?_, Or.inl ⟨"error", Or.inr rfl, ?_⟩⟩ <;>
          simp [h0, h1, h2, h3, status_rank]
      · refine ⟨?_, Or.inl ⟨"completed", Or.inl rfl, ?_⟩⟩ <;>
          simp [h0, h1, h2, h3, status_rank]

/-- Looking up the key just written returns the written entry. -/
theorem store_get_store_set (s : TaskStore) (k : String) (v : TaskEntry) :
    store_get (store_set s k v) k = some v := by
  induction s with
  | nil => simp [store_set, store_get]
  | cons p rest ih =>
      rcases p with ⟨q, w⟩
      by_cases h : q = k
      · subst h; simp [store_set, store_get]
      · simpa [store_set, store_get, h] using ih

/-- Group-key extraction succeeds when every truthy group value is a dict. -/
theorem group_keys_total (fs : List (String × Json)) (k : String)
    (h : ∀ v, fs.lookup k = some v → py_truthy v = true → ∃ gs, v = Json.obj gs) :
    ∃ ks, group_keys fs k = some ks := by
  unfold group_keys
  cases hv : fs.lookup k with
  | none => simp [py_truthy]
  | some v =>
      by_cases ht : py_truthy v = true
      · obtain ⟨gs, rfl⟩ := h v hv ht
        simp [ht]
      · rw [Bool.not_eq_true] at ht
        simp [ht]

/-- Group-key extraction on a dict-valued group gives its keys. -/
theorem group_keys_obj (fs gs : List (String × Json)) (k : String)
    (h : fs.lookup k = some (.obj gs)) :
    group_keys fs k = some (gs.map Prod.fst) := by
  cases gs <;> simp [group_keys, h, py_truthy]

/-- Group-key extraction on an absent group gives the empty list. -/
theorem group_keys_none_key (fs : List (String × Json)) (k : String)
    (h : fs.lookup k = none) : group_keys fs k = some [] := by
  simp [group_keys, h, py_truthy]

/-! ## Claims -/

/-- C9: the per-attempt timeout is `max(5, min(60, latency_ms // 1000))` with
`latency_ms` defaulting to 20000; it always lies in [5, 60] and equals 20
when no `latency_ms` constraint is supplied. -/
theorem C9_timeout_clamped (c : Option (List (String × Int))) :
    5 ≤ timeout_s_of c ∧ timeout_s_of c ≤ 60 ∧
    (∀ v, ((c.getD []).lookup "latency_ms") = some v →
        timeout_s_of c = max 5 (min 60 (Int.fdiv v 1000))) ∧
    (((c.getD []).lookup "latency_ms") = none → timeout_s_of c = 20) := by
  refine ⟨le_max_left _ _, max_le (by norm_num) (min_le_left _ _), ?_, ?_⟩
  · intro v hv; simp [timeout_s_of, timeout_ms_of, hv]
  · intro hv; simp [timeout_s_of, timeout_ms_of, hv]

/-- Witness for C9 at a concrete constraint dict and at no constraints. -/
theorem C9_timeout_clamped_witness :
    timeout_s_of (some [("latency_ms", 3000)]) = max 5 (min 60 (Int.fdiv 3000 1000)) ∧
    timeout_s_of none = 20 :=
  ⟨(C9_timeout_clamped (some [("latency_ms", 3000)])).2.2.1 3000 (by decide),
   (C9_timeout_clamped none).2.2.2 rfl⟩

/-- C1 counterexample: the claim says that after the second failed attempt the
client gives up with no further waiting, i.e. on a double failure the only
sleep is the 0.8 s between the attempts.  With both attempts failing, the
code in fact also sleeps the doubled backoff of 1.6 s after the second
failure before returning: the sleep trace is [0.8, 1.6], not [0.8]. -/
theorem C1_retry_no_extra_wait_cex :
    (request_open_meteo (.obj []) 10 (.httpError 500 "x") (.httpError 502 "y")).sleeps
      ≠ [(4/5 : ℚ)] ∧
    (request_open_meteo (.obj []) 10 (.httpError 500 "x") (.httpError 502 "y")).sleeps
      = [(4/5 : ℚ), (8/5 : ℚ)] := by
  constructor
  · intro h
    have : ([(4/5 : ℚ), (8/5 : ℚ)] : List ℚ) = [(4/5 : ℚ)] := by
      calc ([(4/5 : ℚ), (8/5 : ℚ)] : List ℚ)
          = (request_open_meteo (.obj []) 10 (.httpError 500 "x")
              (.httpError 502 "y")).sleeps := by norm_num [request_open_meteo, rom_loop]
        _ = [(4/5 : ℚ)] := h
    simp at this
  · norm_num [request_open_meteo, rom_loop]

/-- C1 (amended): `request_open_meteo` makes at most 2 attempts; any non-200
or exception is a failure; it sleeps 0.8 s after the first failed attempt
(before the second) and — amending the claim — a further 1.6 s after the
second failed attempt before giving up; on exhaustion it returns the last
observed error (status code plus body truncated to 800 characters, or the
exception text) as a diagnostic, and, being a total function of the attempt
outcomes, lets no exception escape. -/
theorem C1_retry_policy (q : Json) (t : Int) (o1 o2 : AttemptOutcome) :
    (request_open_meteo q t o1 o2).attempts ≤ 2 ∧
    (∀ j, o1 = .ok j → request_open_meteo q t o1 o2 =
        { ok := true, json := some j, error := none, sleeps := [], attempts := 1 }) ∧
    (∀ j, is_failure o1 = true → o2 = .ok j → request_open_meteo q t o1 o2 =
        { ok := true, json := some j, error := none, sleeps := [(4/5 : ℚ)],
          attempts := 2 }) ∧
    (is_failure o1 = true → is_failure o2 = true →
        ∃ d, attempt_diag o2 = some d ∧ request_open_meteo q t o1 o2 =
          { ok := false, json := none, error := some d,
            sleeps := [(4/5 : ℚ), (8/5 : ℚ)], attempts := 2 }) := by
  refine ⟨?_, ?_, ?_, ?_⟩
  · cases o1 <;> cases o2 <;> norm_num [request_open_meteo, rom_loop]
  · rintro j rfl; norm_num [request_open_meteo, rom_loop]
  · rintro j h1 rfl
    cases o1 with
    | ok b => simp [is_failure] at h1
    | httpError c b => norm_num [request_open_meteo, rom_loop]
    | exc m => norm_num [request_open_meteo, rom_loop]
  · intro h1 h2
    cases o1 with
    | ok b => simp [is_failure] at h1
    | httpError c b =>
        cases o2 with
        | ok b2 => simp [is_failure] at h2
        | httpError c2 b2 =>
            exact ⟨_, rfl, by norm_num [request_open_meteo, rom_loop, attempt_diag]⟩
        | exc m2 =>
            exact ⟨_, rfl, by norm_num [request_open_meteo, rom_loop, attempt_diag]⟩
    | exc m =>
        cases o2 with
        | ok b2 => simp [is_failure] at h2
        | httpError c2 b2 =>
            exact ⟨_, rfl, by norm_num [request_open_meteo, rom_loop, attempt_diag]⟩
        | exc m2 =>
            exact ⟨_, rfl, by norm_num [request_open_meteo, rom_loop, attempt_diag]⟩

/-- Witness for C1: a transport failure followed by a 200. -/
theorem C1_retry_policy_witness :
    request_open_meteo (.obj []) 10 (.exc "boom") (.ok .null) =
      { ok := true, json := some .null, error := none, sleeps := [(4/5 : ℚ)],
        attempts := 2 } :=
  (C1_retry_policy (.obj []) 10 (.exc "boom") (.ok .null)).2.2.1 .null rfl rfl

/-- C2 counterexample: the claim says every task reaches a terminal
`completed` or `error`.  On a 200 whose parsed body is a JSON array the
worker raises `AttributeError` at `data.get("latitude")`, the thread dies,
and the entry stays at `working` forever: the status trace has no terminal
element. -/
theorem C2_stuck_working_cex :
    (worker_trace (fun s => s) sample_task (.ok (.arr [])) (.exc "e") 0
        fresh_entry).map TaskEntry.status = ["accepted", "working", "working"] ∧
    (worker_final (fun s => s) sample_task (.ok (.arr [])) (.exc "e") 0
        fresh_entry).status = "working" ∧
    (worker_final (fun s => s) sample_task (.ok (.arr [])) (.exc "e") 0
        fresh_entry).status ≠ "completed" ∧
    (worker_final (fun s => s) sample_task (.ok (.arr [])) (.exc "e") 0
        fresh_entry).status ≠ "error" := by
  refine ⟨rfl, rfl, ?_, ?_⟩ <;> decide

/-- C2 (amended): the stored status never reverts and follows
`accepted → working → (completed | error)`: the entry is created `accepted`,
the worker sets `working` exactly once (the later `idem` write leaves it
unchanged), and when the worker survives to its final update the terminal
status is `completed` or `error` with no transition afterward; when the 200
body is malformed (non-dict payload, or truthy non-dict `hourly`/`daily`
group) the worker thread dies of `AttributeError` and the status stays at
`working` with no terminal transition. -/
theorem C2_status_lifecycle (hash : String → String) (p : A2ATask)
    (o1 o2 : AttemptOutcome) (now : Int) :
    List.Chain' (fun a b => status_rank a ≤ status_rank b)
      ((worker_trace hash p o1 o2 now fresh_entry).map TaskEntry.status) ∧
    ((∃ t, (t = "completed" ∨ t = "error") ∧
        (worker_trace hash p o1 o2 now fresh_entry).map TaskEntry.status
          = ["accepted", "working", "working", t]) ∨
      (worker_trace hash p o1 o2 now fresh_entry).map TaskEntry.status
        = ["accepted", "working", "working"]) := by
  simp only [worker_trace]
  exact trace_status_disj _ _ _ _ rfl rfl rfl
    (fun e3 h => worker_finish_some_status _ _ _ _ _ h)

/-- C4: when both upstream attempts fail, the worker leaves the task in
status `error` with `outputs.message = "upstream_failed"` and the client's
diagnostic as `outputs.detail`, and the evidence list stays empty. -/
theorem C4_upstream_failure (hash : String → String) (p : A2ATask)
    (o1 o2 : AttemptOutcome) (now : Int)
    (h1 : is_failure o1 = true) (h2 : is_failure o2 = true) :
    (worker_final hash p o1 o2 now fresh_entry).status = "error" ∧
    json_get (worker_final hash p o1 o2 now fresh_entry).outputs "message"
      = some (.str "upstream_failed") ∧
    (∃ d, (request_open_meteo (build_query p.inputs) (timeout_s_of p.constraints)
            o1 o2).error = some d ∧
      json_get (worker_final hash p o1 o2 now fresh_entry).outputs "detail"
        = some (.str d)) ∧
    (worker_final hash p o1 o2 now fresh_entry).evidence = [] := by
  cases o1 with
  | ok b => simp [is_failure] at h1
  | httpError c bd =>
      cases o2 with
      | ok b2 => simp [is_failure] at h2
      | httpError c2 b2 =>
          exact ⟨rfl, rfl, ⟨_, rfl, rfl⟩, rfl⟩
      | exc m2 =>
          exact ⟨rfl, rfl, ⟨_, rfl, rfl⟩, rfl⟩
  | exc m =>
      cases o2 with
      | ok b2 => simp [is_failure] at h2
      | httpError c2 b2 =>
          exact ⟨rfl, rfl, ⟨_, rfl, rfl⟩, rfl⟩
      | exc m2 =>
          exact ⟨rfl, rfl, ⟨_, rfl, rfl⟩, rfl⟩

/-- Witness for C4: two non-200 responses. -/
theorem C4_upstream_failure_witness :
    (worker_final (fun s => s) sample_task (.httpError 500 "oops")
        (.httpError 503 "busy") 0 fresh_entry).status = "error" ∧
    (worker_final (fun s => s) sample_task (.httpError 500 "oops")
        (.httpError 503 "busy") 0 fresh_entry).evidence = [] :=
  ⟨(C4_upstream_failure (fun s => s) sample_task (.httpError 500 "oops")
      (.httpError 503 "busy") 0 rfl rfl).1,
   (C4_upstream_failure (fun s => s) sample_task (.httpError 500 "oops")
      (.httpError 503 "busy") 0 rfl rfl).2.2.2⟩


/-- The handler's answer to a failed parse/validation, given a Bearer header. -/
theorem create_task_error_eq (auth : Option String) (e : String)
    (fresh_id : String) (tasks : TaskStore)
    (hauth : startswith (auth.getD "") "Bearer " = true) :
    create_task auth (.error e) fresh_id tasks =
      { http_status := 200,
        body := .obj [("status", .str "input_required"),
                      ("outputs", .obj [("error", .str e),
                                        ("example", example_payload)])],
        tasks := tasks, spawned := none } := by
  simp [create_task, hauth]

/-- Out-of-range raw inputs never validate. -/
theorem validate_inputs_oor (r : RawForecastInputs) (h : out_of_range_inputs r) :
    ∀ i, validate_inputs r ≠ .ok i := by
  intro i hok
  unfold validate_inputs at hok
  split at hok
  · exact Except.noConfusion hok
  split at hok
  · exact Except.noConfusion hok
  split at hok
  · exact Except.noConfusion hok
  split at hok
  · exact Except.noConfusion hok
  rename_i h1 h2 h3 h4
  rcases h with hl | hl | hl | hl | ⟨v, hv, hvr⟩ | ⟨v, hv, hvr⟩
  · exact h1 (Or.inl hl)
  · exact h1 (Or.inr hl)
  · exact h2 (Or.inl hl)
  · exact h2 (Or.inr hl)
  · rw [hv] at h3; exact h3 (by simpa using hvr)
  · rw [hv] at h4; exact h4 (by simpa using hvr)

/-- C3 counterexample: the claim promises completion and exactly one evidence
record for every task whose upstream call succeeds, but on a 200 whose parsed
body is a JSON array `data.get("latitude")` raises `AttributeError`, the
worker thread dies, and the task never completes: the status stays `working`
and no evidence is recorded. -/
theorem C3_nonobject_body_cex :
    (worker_final (fun s => s) sample_task (.ok (.arr [.num 1])) (.exc "e") 0
        fresh_entry).status ≠ "completed" ∧
    (worker_final (fun s => s) sample_task (.ok (.arr [.num 1])) (.exc "e") 0
        fresh_entry).status = "working" ∧
    (worker_final (fun s => s) sample_task (.ok (.arr [.num 1])) (.exc "e") 0
        fresh_entry).evidence = [] := by
  refine ⟨?_, rfl, rfl⟩
  decide

/-- C3 (amended): when the upstream call succeeds with a body that is a JSON
object whose truthy `hourly`/`daily` group values are themselves objects, the
worker completes the task: status `completed`; `outputs.open_meteo` is the
payload verbatim; `outputs.summary` echoes the upstream latitude/longitude
and lists the key names of the hourly/daily field groups the provider
returned (empty when a group is absent); and the evidence is exactly one
record built from the upstream URL, the hash of the serialized normalized
query, and the capture timestamp.  (On a non-object body or a truthy
non-object group the worker thread dies of `AttributeError` and the task
stays `working` — see the counterexample.) -/
theorem C3_success_completion (hash : String → String) (p : A2ATask)
    (o1 o2 : AttemptOutcome) (now : Int) (fs : List (String × Json))
    (e : TaskEntry)
    (hok : (request_open_meteo (build_query p.inputs) (timeout_s_of p.constraints)
            o1 o2).json = some (Json.obj fs))
    (hh : ∀ v, json_get (Json.obj fs) "hourly" = some v → py_truthy v = true →
            ∃ gs, v = Json.obj gs)
    (hd : ∀ v, json_get (Json.obj fs) "daily" = some v → py_truthy v = true →
            ∃ gs, v = Json.obj gs)
    (he : e = worker_final hash p o1 o2 now fresh_entry) :
    e.status = "completed" ∧
    json_get e.outputs "open_meteo" = some (Json.obj fs) ∧
    (∃ s, json_get e.outputs "summary" = some s ∧
      json_get s "latitude" = some (py_get (Json.obj fs) "latitude") ∧
      json_get s "longitude" = some (py_get (Json.obj fs) "longitude") ∧
      (∀ gs, json_get (Json.obj fs) "hourly" = some (.obj gs) →
        json_get s "hourly_fields"
          = some (.arr (gs.map fun kv => Json.str kv.1))) ∧
      (json_get (Json.obj fs) "hourly" = none →
        json_get s "hourly_fields" = some (.arr [])) ∧
      (∀ gs, json_get (Json.obj fs) "daily" = some (.obj gs) →
        json_get s "daily_fields"
          = some (.arr (gs.map fun kv => Json.str kv.1))) ∧
      (json_get (Json.obj fs) "daily" = none →
        json_get s "daily_fields" = some (.arr []))) ∧
    e.evidence
      = [evidence_record (hash (json_dumps_sorted (build_query p.inputs))) now] := by
  subst he
  obtain ⟨hks, hhk⟩ := group_keys_total fs "hourly" hh
  obtain ⟨dks, hdk⟩ := group_keys_total fs "daily" hd
  have main : ∀ o1a o2a : AttemptOutcome,
      request_open_meteo (build_query p.inputs) (timeout_s_of p.constraints)
          o1a o2a
        = { ok := true, json := some (Json.obj fs),
            error := (request_open_meteo (build_query p.inputs)
                        (timeout_s_of p.constraints) o1a o2a).error,
            sleeps := (request_open_meteo (build_query p.inputs)
                        (timeout_s_of p.constraints) o1a o2a).sleeps,
            attempts := (request_open_meteo (build_query p.inputs)
                        (timeout_s_of p.constraints) o1a o2a).attempts } →
      (worker_final hash p o1a o2a now fresh_entry).status = "completed" ∧
      json_get (worker_final hash p o1a o2a now fresh_entry).outputs "open_meteo"
        = some (Json.obj fs) ∧
      (∃ s, json_get (worker_final hash p o1a o2a now fresh_entry).outputs
              "summary" = some s ∧
        json_get s "latitude" = some (py_get (Json.obj fs) "latitude") ∧
        json_get s "longitude" = some (py_get (Json.obj fs) "longitude") ∧
        (∀ gs, json_get (Json.obj fs) "hourly" = some (.obj gs) →
          json_get s "hourly_fields"
            = some (.arr (gs.map fun kv => Json.str kv.1))) ∧
        (json_get (Json.obj fs) "hourly" = none →
          json_get s "hourly_fields" = some (.arr [])) ∧
        (∀ gs, json_get (Json.obj fs) "daily" = some (.obj gs) →
          json_get s "daily_fields"
            = some (.arr (gs.map fun kv => Json.str kv.1))) ∧
        (json_get (Json.obj fs) "daily" = none →
          json_get s "daily_fields" = some (.arr []))) ∧
      (worker_final hash p o1a o2a now fresh_entry).evidence
        = [evidence_record (hash (json_dumps_sorted (build_query p.inputs)))
            now] := by
    intro o1a o2a hres
    rw [worker_final_success hash p o1a o2a now fs hks dks _ _ _ hres hhk hdk]
    refine ⟨rfl, rfl, ⟨_, rfl, rfl, rfl, ?_, ?_, ?_, ?_⟩, rfl⟩
    · intro gs hgs
      have h2 : group_keys fs "hourly" = some (gs.map Prod.fst) :=
        group_keys_obj fs gs "hourly" hgs
      rw [hhk] at h2
      injection h2 with h3
      subst h3
      show some (Json.arr ((gs.map Prod.fst).map Json.str)) = _
      rw [List.map_map]
      rfl
    · intro hab
      have h2 : group_keys fs "hourly" = some [] :=
        group_keys_none_key fs "hourly" hab
      rw [hhk] at h2
      injection h2 with h3
      subst h3
      rfl
    · intro gs hgs
      have h2 : group_keys fs "daily" = some (gs.map Prod.fst) :=
        group_keys_obj fs gs "daily" hgs
      rw [hdk] at h2
      injection h2 with h3
      subst h3
      show some (Json.arr ((gs.map Prod.fst).map Json.str)) = _
      rw [List.map_map]
      rfl
    · intro hab
      have h2 : group_keys fs "daily" = some [] :=
        group_keys_none_key fs "daily" hab
      rw [hdk] at h2
      injection h2 with h3
      subst h3
      rfl
  cases o1 with
  | ok b =>
      have hb : b = Json.obj fs := by
        simpa [request_open_meteo, rom_loop] using hok
      subst hb
      exact main (.ok (Json.obj fs)) o2 rfl
  | httpError c bd =>
      cases o2 with
      | ok b2 =>
          have hb : b2 = Json.obj fs := by
            simpa [request_open_meteo, rom_loop] using hok
          subst hb
          exact main (.httpError c bd) (.ok (Json.obj fs)) rfl
      | httpError c2 b2 => simp [request_open_meteo, rom_loop] at hok
      | exc m2 => simp [request_open_meteo, rom_loop] at hok
  | exc m =>
      cases o2 with
      | ok b2 =>
          have hb : b2 = Json.obj fs := by
            simpa [request_open_meteo, rom_loop] using hok
          subst hb
          exact main (.exc m) (.ok (Json.obj fs)) rfl
      | httpError c2 b2 => simp [request_open_meteo, rom_loop] at hok
      | exc m2 => simp [request_open_meteo, rom_loop] at hok

/-- Witness for C3: a 200 on the first attempt with a well-formed sample
body whose `hourly` group is an object and whose `daily` group is absent. -/
theorem C3_success_completion_witness :
    (worker_final (fun s => s) sample_task (.ok sample_data) (.exc "e") 0
        fresh_entry).status = "completed" ∧
    (worker_final (fun s => s) sample_task (.ok sample_data) (.exc "e") 0
        fresh_entry).evidence
      = [evidence_record (json_dumps_sorted (build_query sample_task.inputs)) 0] :=
  ⟨(C3_success_completion (fun s => s) sample_task (.ok sample_data) (.exc "e") 0
      sample_fields _ rfl
      (fun v hv ht => ⟨_, Option.some.inj (hv.symm.trans rfl)⟩)
      (fun v hv ht => Option.noConfusion (hv.symm.trans rfl))
      rfl).1,
   (C3_success_completion (fun s => s) sample_task (.ok sample_data) (.exc "e") 0
      sample_fields _ rfl
      (fun v hv ht => ⟨_, Option.some.inj (hv.symm.trans rfl)⟩)
      (fun v hv ht => Option.noConfusion (hv.symm.trans rfl))
      rfl).2.2.2⟩

/-- C5 counterexample: the claim says the stored token equals the
caller-supplied `idempotency_key` whenever one is present.  An empty-string
key is present, but `payload.idempotency_key or qhash` is Python truthiness,
so the worker stores the query hash instead of the supplied key. -/
theorem C5_empty_key_cex :
    sample_task_empty_key.idempotency_key = some "" ∧
    (worker_final (fun s => "sha256-" ++ s) sample_task_empty_key
        (.exc "e1") (.exc "e2") 0 fresh_entry).idem ≠ some "" := by
  refine ⟨rfl, ?_⟩
  rw [worker_final_idem]
  intro h
  have h2 : py_or_str (some "")
      ("sha256-" ++ json_dumps_sorted (build_query sample_task_empty_key.inputs))
      = "" := by
    exact Option.some.inj h
  revert h2
  decide

/-- C5 (amended): the stored idempotency token equals the caller-supplied
`idempotency_key` when a non-empty one is present; when the key is absent —
or empty, by Python truthiness — it is the hash of the normalized query
serialized with sorted keys; and the fallback is deterministic: tasks with
the same normalized query get the same token. -/
theorem C5_idem_token (hash : String → String) (p : A2ATask)
    (o1 o2 : AttemptOutcome) (now : Int) (e0 : TaskEntry) :
    (∀ k, p.idempotency_key = some k → k ≠ "" →
        (worker_final hash p o1 o2 now e0).idem = some k) ∧
    ((p.idempotency_key = none ∨ p.idempotency_key = some "") →
        (worker_final hash p o1 o2 now e0).idem
          = some (hash (json_dumps_sorted (build_query p.inputs)))) ∧
    (∀ p2 : A2ATask, build_query p2.inputs = build_query p.inputs →
        p2.idempotency_key = none → p.idempotency_key = none →
        (worker_final hash p2 o1 o2 now e0).idem
          = (worker_final hash p o1 o2 now e0).idem) := by
  refine ⟨?_, ?_, ?_⟩
  · intro k hk hne
    rw [worker_final_idem, hk]
    simp [py_or_str, hne]
  · rintro (hk | hk) <;> rw [worker_final_idem, hk] <;> simp [py_or_str]
  · intro p2 hq h2 h1
    rw [worker_final_idem, worker_final_idem, h1, h2, hq]

/-- Witness for C5: a non-empty caller-supplied key is stored as-is, and an
absent key falls back to the query hash. -/
theorem C5_idem_token_witness :
    (worker_final (fun s => "sha256-" ++ s) sample_task_with_key
        (.exc "e1") (.exc "e2") 0 fresh_entry).idem = some "key-1" ∧
    (worker_final (fun s => "sha256-" ++ s) sample_task
        (.exc "e1") (.exc "e2") 0 fresh_entry).idem
      = some ("sha256-" ++ json_dumps_sorted (build_query sample_task.inputs)) :=
  ⟨(C5_idem_token (fun s => "sha256-" ++ s) sample_task_with_key
      (.exc "e1") (.exc "e2") 0 fresh_entry).1 "key-1" rfl (by decide),
   (C5_idem_token (fun s => "sha256-" ++ s) sample_task
      (.exc "e1") (.exc "e2") 0 fresh_entry).2.1 (Or.inl rfl)⟩

/-- C6: a request whose latitude is outside [-90, 90], longitude outside
[-180, 180], `forecast_days` outside [1, 16], or `past_days` outside [0, 14]
never validates (rejected, not clamped): the handler answers with status
`input_required`, stores nothing, and spawns no worker. -/
theorem C6_out_of_range_rejected (auth : Option String) (r : RawA2ATask)
    (fresh_id : String) (tasks : TaskStore)
    (hauth : startswith (auth.getD "") "Bearer " = true)
    (hoor : out_of_range_inputs r.inputs) :
    (∀ t, parse_task r ≠ .ok t) ∧
    json_get (create_task auth (parse_task r) fresh_id tasks).body "status"
      = some (.str "input_required") ∧
    (create_task auth (parse_task r) fresh_id tasks).tasks = tasks ∧
    (create_task auth (parse_task r) fresh_id tasks).spawned = none := by
  have hval := validate_inputs_oor r.inputs hoor
  have hperr : ∃ e, parse_task r = .error e := by
    unfold parse_task
    cases hv : validate_inputs r.inputs with
    | error e => exact ⟨e, rfl⟩
    | ok i => exact absurd hv (hval i)
  obtain ⟨e, he⟩ := hperr
  rw [he, create_task_error_eq auth e fresh_id tasks hauth]
  refine ⟨?_, rfl, rfl, rfl⟩
  intro t ht
  exact Except.noConfusion ht

/-- Witness for C6: latitude 91 with a Bearer header. -/
theorem C6_out_of_range_rejected_witness :
    json_get (create_task (some "Bearer k") (parse_task raw_bad_latitude)
        "tid-1" []).body "status" = some (.str "input_required") ∧
    (create_task (some "Bearer k") (parse_task raw_bad_latitude)
        "tid-1" []).tasks = [] :=
  ⟨(C6_out_of_range_rejected (some "Bearer k") raw_bad_latitude "tid-1" []
      (by decide) (Or.inr (Or.inl (by norm_num [raw_bad_latitude])))).2.1,
   (C6_out_of_range_rejected (some "Bearer k") raw_bad_latitude "tid-1" []
      (by decide) (Or.inr (Or.inl (by norm_num [raw_bad_latitude])))).2.2.1⟩

/-- C7: a well-formed request whose `type` differs from `"weather.forecast"`
gets exactly the `input_required` / `expected_type` response, the store is
untouched, and no worker is spawned. -/
theorem C7_wrong_type_response (auth : Option String) (t : A2ATask)
    (fresh_id : String) (tasks : TaskStore)
    (hauth : startswith (auth.getD "") "Bearer " = true)
    (ht : t.type ≠ "weather.forecast") :
    create_task auth (.ok t) fresh_id tasks =
      { http_status := 200,
        body := .obj [("status", .str "input_required"),
                      ("outputs", .obj [("expected_type", .str "weather.forecast")])],
        tasks := tasks, spawned := none } := by
  simp [create_task, hauth, ht]

/-- Witness for C7: `type = "weather.nowcast"`. -/
theorem C7_wrong_type_response_witness :
    create_task (some "Bearer k")
        (.ok { sample_task with type := "weather.nowcast" }) "tid-1" [] =
      { http_status := 200,
        body := .obj [("status", .str "input_required"),
                      ("outputs", .obj [("expected_type", .str "weather.forecast")])],
        tasks := [], spawned := none } :=
  C7_wrong_type_response (some "Bearer k")
    { sample_task with type := "weather.nowcast" } "tid-1" [] (by decide) (by decide)

/-- C8: an authorized request whose body fails to parse or validate is
answered with HTTP 200 (never 4xx/5xx), status `input_required`, the error
text and the literal example payload; the exception is consumed by the
handler. -/
theorem C8_malformed_http200 (auth : Option String) (e : String)
    (fresh_id : String) (tasks : TaskStore)
    (hauth : startswith (auth.getD "") "Bearer " = true) :
    create_task auth (.error e) fresh_id tasks =
      { http_status := 200,
        body := .obj [("status", .str "input_required"),
                      ("outputs", .obj [("error", .str e),
                                        ("example", example_payload)])],
        tasks := tasks, spawned := none } :=
  create_task_error_eq auth e fresh_id tasks hauth

/-- Witness for C8 at a concrete parse error. -/
theorem C8_malformed_http200_witness :
    (create_task (some "Bearer k") (.error "Expecting value: line 1 column 1")
        "tid-1" []).http_status = 200 := by
  rw [C8_malformed_http200 (some "Bearer k") "Expecting value: line 1 column 1"
      "tid-1" [] (by decide)]

/-- C10: a request carrying a `task_id` already present in the store
unconditionally overwrites that entry with a fresh accepted record and spawns
a new worker — no duplicate-id check or conflict response. -/
theorem C10_duplicate_id_overwritten (auth : Option String) (t : A2ATask)
    (tid fresh_id : String) (tasks : TaskStore) (old : TaskEntry)
    (hauth : startswith (auth.getD "") "Bearer " = true)
    (htype : t.type = "weather.forecast")
    (hid : t.task_id = some tid) (hne : tid ≠ "")
    (hold : store_get tasks tid = some old) :
    store_get (create_task auth (.ok t) fresh_id tasks).tasks tid
      = some fresh_entry ∧
    (create_task auth (.ok t) fresh_id tasks).spawned = some (tid, t) ∧
    (create_task auth (.ok t) fresh_id tasks).body
      = .obj [("task_id", .str tid), ("status", .str "accepted")] := by
  have hct : create_task auth (.ok t) fresh_id tasks =
      { http_status := 200,
        body := .obj [("task_id", .str tid), ("status", .str "accepted")],
        tasks := store_set tasks tid fresh_entry,
        spawned := some (tid, t) } := by
    simp [create_task, hauth, htype, py_or_str, hid, hne]
  rw [hct]
  exact ⟨store_get_store_set tasks tid fresh_entry, rfl, rfl⟩

/-- Witness for C10: the id `"t1"` already maps to a completed entry and is
silently replaced by a fresh accepted one. -/
theorem C10_duplicate_id_overwritten_witness :
    store_get (create_task (some "Bearer k")
        (.ok { sample_task with task_id := some "t1" }) "fresh-id"
        [("t1", sample_old_entry)]).tasks "t1" = some fresh_entry :=
  (C10_duplicate_id_overwritten (some "Bearer k")
    { sample_task with task_id := some "t1" } "t1" "fresh-id"
    [("t1", sample_old_entry)] sample_old_entry
    (by decide) rfl rfl (by decide) (by simp [store_get])).1

end OpenMeteo
